import Mathlib

/-!
Verification development for the polishui screenshot-composition pipeline.

The TypeScript sources are shallowly embedded: JS strings are modelled as
lists of UTF-16 code units (`JSStr`), JS numbers used as integer counters
are `Int`/`Nat`, fallible code returns `Except String`, and external
library calls (Sharp pixel operations, JSZip compression, the built-in
Unicode lowercasing table) are abstracted as function parameters.
-/

namespace Polishui

/-- A JavaScript string, as its list of UTF-16 code units.
JS `String.prototype.length` is the length of this list. -/
abbrev JSStr := List Nat

/-- Embed a Lean string literal (BMP characters only, where code point =
UTF-16 code unit) as a `JSStr`. -/
def jstr (s : String) : JSStr := s.toList.map Char.toNat

/-- JS truthiness of a string: the empty string is falsy. -/
def jsTruthyStr (s : JSStr) : Bool := !s.isEmpty

/-- JS truthiness of a possibly-undefined string (`undefined` is falsy). -/
def jsTruthyOpt (s : Option JSStr) : Bool :=
  match s with
  | some v => jsTruthyStr v
  | none => false

/-- Code units removed by JS `String.prototype.trim` (WhiteSpace and
LineTerminator code points). -/
def isJsWhitespace (c : Nat) : Bool :=
  c = 9 || c = 10 || c = 11 || c = 12 || c = 13 || c = 32 || c = 160 ||
  c = 5760 || (8192 ≤ c && c ≤ 8202) || c = 8232 || c = 8233 ||
  c = 8239 || c = 8287 || c = 12288 || c = 65279

/-- JS `s.trim()`: strip whitespace at both ends. -/
def jsTrim (s : JSStr) : JSStr :=
  ((s.dropWhile isJsWhitespace).reverse.dropWhile isJsWhitespace).reverse

/-- JS `s.lastIndexOf(c)` for a single code unit `c`: the greatest index
holding `c`, or `-1`. -/
def jsLastIndexOf (c : Nat) (s : JSStr) : Int :=
  match s.reverse.findIdx? (fun d => d == c) with
  | some k => (s.length : Int) - 1 - (k : Int)
  | none => -1

/-- JS `s.padStart(2, c)`. -/
def jsPadStart2 (s : JSStr) (c : Nat) : JSStr :=
  if s.length ≥ 2 then s else List.replicate (2 - s.length) c ++ s

/-- JS `n.toString()` for an integer-valued number. -/
def jsNumToStr (n : Int) : JSStr := jstr (toString n)

/-- JS `ToInt32`: reduce an integer modulo `2 ^ 32` into
`[-2 ^ 31, 2 ^ 31)`. -/
def toInt32 (n : Int) : Int :=
  let m := n % 4294967296
  if m < 2147483648 then m else m - 4294967296

-- ============================================================================
-- Domain types (src/domain/types.ts)
-- ============================================================================

inductive DevicePlatform where
  | iPhone
  | iPad
deriving DecidableEq

inductive PageOrient where
  | portrait
  | landscape
deriving DecidableEq

structure SafeMargin where
  top : Nat
  right : Nat
  bottom : Nat
  left : Nat
deriving DecidableEq

structure DeviceTarget where
  id : JSStr
  platform : DevicePlatform
  displayName : JSStr
  width : Nat
  height : Nat
  orient : PageOrient
  safeMargin : SafeMargin
deriving DecidableEq

inductive SlideType where
  | hero
  | feature
  | closing
deriving DecidableEq

structure SlideText where
  headline : JSStr
  subheadline : JSStr
  locale : JSStr
deriving DecidableEq

structure SlideScreenshot where
  screenshotId : JSStr
  originalFilename : JSStr
deriving DecidableEq

structure Slide where
  id : Nat
  type : SlideType
  text : SlideText
  screenshot : SlideScreenshot
  templateId : JSStr
deriving DecidableEq

structure Storyboard where
  appName : JSStr
  locale : JSStr
  slides : List Slide
  createdAt : JSStr
  version : JSStr
deriving DecidableEq

inductive LayoutPrimitive where
  | stack
  | split
  | hero
deriving DecidableEq

inductive TextAlign where
  | left
  | center
  | right
deriving DecidableEq

structure TextPosition where
  align : TextAlign
  verticalPosition : Nat
  maxWidth : Nat
deriving DecidableEq

structure ScreenshotPosition where
  verticalPosition : Nat
  width : Nat
  applyFrame : Bool
deriving DecidableEq

inductive BackgroundType where
  | solid
  | gradient
deriving DecidableEq

structure BackgroundSpec where
  type : BackgroundType
  colors : List JSStr
deriving DecidableEq

structure Template where
  id : JSStr
  name : JSStr
  layout : LayoutPrimitive
  applicableTypes : List SlideType
  textPosition : TextPosition
  screenshotPosition : ScreenshotPosition
  background : BackgroundSpec
deriving DecidableEq

structure UploadedScreenshot where
  id : JSStr
  filename : JSStr
  mimeType : JSStr
  size : Nat
deriving DecidableEq

structure StoryboardInput where
  appName : JSStr
  valueBullets : List JSStr
  screenshots : List UploadedScreenshot
  brandColor : Option JSStr
  locale : JSStr
deriving DecidableEq

-- ============================================================================
-- Theme (src/domain/theme.ts) — the parts the verified claims depend on
-- ============================================================================

/-- `COLORS.primary[500]`, the default brand color. -/
def COLORS_primary500 : JSStr := jstr ("#0ea5e9")

/-- `COLORS.primary[400]`. -/
def COLORS_primary400 : JSStr := jstr ("#38bdf8")

/-- `COLORS.primary[600]`. -/
def COLORS_primary600 : JSStr := jstr ("#0284c7")

/-- `COLORS.primary[700]`. -/
def COLORS_primary700 : JSStr := jstr ("#0369a1")

/-- `COLORS.white` = `BACKGROUND_COLORS.solid.light`. -/
def COLORS_white : JSStr := jstr ("#ffffff")

structure Rgb where
  r : Nat
  g : Nat
  b : Nat
deriving DecidableEq

/-- Hex digit test matching the character class of the regex
in `hexToRgb` (`[a-f\d]` with the `i` flag). -/
def isHexDigitCU (c : Nat) : Bool :=
  (48 ≤ c && c ≤ 57) || (97 ≤ c && c ≤ 102) || (65 ≤ c && c ≤ 70)

/-- Numeric value of a hex digit code unit. -/
def hexDigitVal (c : Nat) : Nat :=
  if 48 ≤ c && c ≤ 57 then c - 48
  else if 97 ≤ c && c ≤ 102 then c - 87
  else if 65 ≤ c && c ≤ 70 then c - 55
  else 0

/-- `hexToRgb`: parse `#?RRGGBB` (regex with optional leading hash then
exactly six hex digits, case-insensitive); throws on non-match. -/
def hexToRgb (hex : JSStr) : Except String Rgb :=
  let t := match hex with
    | 35 :: rest => rest
    | s => s
  match t with
  | [a, b, c, d, e, f] =>
    if isHexDigitCU a && isHexDigitCU b && isHexDigitCU c &&
        isHexDigitCU d && isHexDigitCU e && isHexDigitCU f then
      .ok ⟨hexDigitVal a * 16 + hexDigitVal b,
           hexDigitVal c * 16 + hexDigitVal d,
           hexDigitVal e * 16 + hexDigitVal f⟩
    else
      .error ("Invalid hex color")
  | _ => .error ("Invalid hex color")

/-- `isValidHexColor`: regex `#` followed by exactly six hex digits
(case-insensitive). -/
def isValidHexColor (hex : JSStr) : Bool :=
  match hex with
  | 35 :: rest =>
    rest.length = 6 && rest.all isHexDigitCU
  | _ => false

/-- `getBrandColor`: the user color when truthy and valid, else
`COLORS.primary[500]`. -/
def getBrandColor (userColor : Option JSStr) : JSStr :=
  if jsTruthyOpt userColor && isValidHexColor (userColor.getD []) then
    userColor.getD []
  else
    COLORS_primary500

-- ============================================================================
-- Templates (src/domain/templates.ts)
-- ============================================================================

def HERO_TEMPLATE : Template :=
  { id := jstr ("hero")
    name := jstr ("Hero Layout")
    layout := .hero
    applicableTypes := [.hero]
    textPosition := { align := .center, verticalPosition := 20, maxWidth := 85 }
    screenshotPosition := { verticalPosition := 45, width := 70, applyFrame := true }
    background := { type := .gradient, colors := [COLORS_primary600, COLORS_primary400] } }

def STACK_TEMPLATE : Template :=
  { id := jstr ("stack")
    name := jstr ("Stack Layout")
    layout := .stack
    applicableTypes := [.feature]
    textPosition := { align := .center, verticalPosition := 12, maxWidth := 90 }
    screenshotPosition := { verticalPosition := 35, width := 65, applyFrame := true }
    background := { type := .solid, colors := [COLORS_white] } }

def SPLIT_TEMPLATE : Template :=
  { id := jstr ("split")
    name := jstr ("Split Layout")
    layout := .split
    applicableTypes := [.feature]
    textPosition := { align := .left, verticalPosition := 30, maxWidth := 80 }
    screenshotPosition := { verticalPosition := 25, width := 45, applyFrame := true }
    background := { type := .solid, colors := [COLORS_white] } }

def CLOSING_TEMPLATE : Template :=
  { id := jstr ("closing")
    name := jstr ("Closing Layout")
    layout := .hero
    applicableTypes := [.closing]
    textPosition := { align := .center, verticalPosition := 35, maxWidth := 85 }
    screenshotPosition := { verticalPosition := 70, width := 50, applyFrame := false }
    background := { type := .gradient, colors := [COLORS_primary700, COLORS_primary500] } }

def TEMPLATES : List Template :=
  [HERO_TEMPLATE, STACK_TEMPLATE, SPLIT_TEMPLATE, CLOSING_TEMPLATE]

/-- `DEFAULT_TEMPLATE_BY_TYPE` record. -/
def DEFAULT_TEMPLATE_BY_TYPE (t : SlideType) : JSStr :=
  match t with
  | .hero => jstr ("hero")
  | .feature => jstr ("stack")
  | .closing => jstr ("closing")

/-- `getTemplateById`: linear search of the catalog, throws when absent. -/
def getTemplateById (id : JSStr) : Except String Template :=
  match TEMPLATES.find? (fun t => t.id == id) with
  | some t => .ok t
  | none => .error ("Template not found")

/-- `getTemplatesForSlideType`. -/
def getTemplatesForSlideType (slideType : SlideType) : List Template :=
  TEMPLATES.filter (fun t => slideType ∈ t.applicableTypes)

/-- `getDefaultTemplateForSlideType`. -/
def getDefaultTemplateForSlideType (slideType : SlideType) : Except String Template :=
  getTemplateById (DEFAULT_TEMPLATE_BY_TYPE slideType)

/-- `selectTemplate`: a truthy requested id that resolves to an applicable
template is returned; otherwise (inapplicable, unresolved, or no id) the
slide type falls back to its configured default. -/
def selectTemplate (slideType : SlideType) (templateId : Option JSStr) :
    Except String Template :=
  if jsTruthyOpt templateId then
    match getTemplateById (templateId.getD []) with
    | .ok t =>
      if slideType ∈ t.applicableTypes then .ok t
      else getDefaultTemplateForSlideType slideType
    | .error _ => getDefaultTemplateForSlideType slideType
  else
    getDefaultTemplateForSlideType slideType

-- ============================================================================
-- Domain constants (src/domain/constants.ts)
-- ============================================================================

def IPHONE_TARGET : DeviceTarget :=
  { id := jstr ("iphone-6.7")
    platform := .iPhone
    displayName := jstr ("iPhone 6.7 Display")
    width := 1290
    height := 2796
    orient := .portrait
    safeMargin := { top := 120, right := 60, bottom := 120, left := 60 } }

def IPAD_TARGET : DeviceTarget :=
  { id := jstr ("ipad-12.9")
    platform := .iPad
    displayName := jstr ("iPad Pro 12.9 Display")
    width := 2064
    height := 2752
    orient := .portrait
    safeMargin := { top := 160, right := 80, bottom := 160, left := 80 } }

def DEVICE_TARGETS : List DeviceTarget := [IPHONE_TARGET, IPAD_TARGET]

def SLIDES_PER_STORYBOARD : Nat := 5

def VALUE_BULLETS_MIN : Nat := 3
def VALUE_BULLETS_MAX : Nat := 6
def SCREENSHOTS_MIN : Nat := 5
def SCREENSHOTS_MAX : Nat := 10
def HEADLINE_MAX_LENGTH : Nat := 32
def SUBHEADLINE_MAX_LENGTH : Nat := 60
def APP_NAME_MAX_LENGTH : Nat := 50

def GENERATOR_VERSION : JSStr := jstr ("1.0")

def MANIFEST_FILENAME : JSStr := jstr ("manifest.json")

/-- `FILENAME_PATTERN.iphone`. -/
def FILENAME_PATTERN_iphone (slideNumber : Int) : JSStr :=
  jstr ("iphone_") ++ jsPadStart2 (jsNumToStr slideNumber) 48 ++ jstr (".png")

/-- `FILENAME_PATTERN.ipad`. -/
def FILENAME_PATTERN_ipad (slideNumber : Int) : JSStr :=
  jstr ("ipad_") ++ jsPadStart2 (jsNumToStr slideNumber) 48 ++ jstr (".png")

/-- `generateFilename`: throws outside 1..5, otherwise applies the
platform filename pattern. -/
def generateFilename (platform : DevicePlatform) (slideNumber : Int) :
    Except String JSStr :=
  if slideNumber < 1 ∨ slideNumber > (SLIDES_PER_STORYBOARD : Int) then
    .error ("Invalid slide number: " ++ toString slideNumber ++ ". Must be 1-5")
  else
    match platform with
    | .iPhone => .ok (FILENAME_PATTERN_iphone slideNumber)
    | .iPad => .ok (FILENAME_PATTERN_ipad slideNumber)

/-- `validateStoryboardInput`: throws a descriptive message for each
violated constraint, in source order. -/
def validateStoryboardInput {α : Type} (appName : JSStr)
    (valueBullets : List JSStr) (screenshots : List α) : Except String Unit :=
  if !jsTruthyStr appName || (jsTrim appName).length == 0 then
    .error ("App name is required")
  else if appName.length > APP_NAME_MAX_LENGTH then
    .error ("App name must be 50 characters or less")
  else if valueBullets.length < VALUE_BULLETS_MIN then
    .error ("At least 3 value bullets are required")
  else if valueBullets.length > VALUE_BULLETS_MAX then
    .error ("Maximum 6 value bullets allowed")
  else if screenshots.length < SCREENSHOTS_MIN then
    .error ("At least 5 screenshots are required")
  else if screenshots.length > SCREENSHOTS_MAX then
    .error ("Maximum 10 screenshots allowed")
  else
    .ok ()

-- ============================================================================
-- Copy generation (src/application/services/RuleBasedCopyGenerator.ts)
-- ============================================================================

structure BrandContext where
  industry : Option JSStr := none
  targetAudience : Option JSStr := none
  tone : Option JSStr := none
deriving DecidableEq

structure CopyGenerationInput where
  appName : JSStr
  valueBullet : Option JSStr := none
  slideType : SlideType
  locale : JSStr
  brandContext : Option BrandContext := none
deriving DecidableEq

structure CopyMetadata where
  model : Option JSStr := none
  truncated : Bool := false
  fallbackUsed : Bool := false
deriving DecidableEq

structure GeneratedCopy where
  headline : JSStr
  subheadline : JSStr
  locale : JSStr
  metadata : CopyMetadata
deriving DecidableEq

namespace RuleBased

/-- One step of `hashString`: JS `hash = ((hash << 5) - hash) + char;
hash = hash & hash` (the bitwise-and coerces to a 32-bit integer). -/
def hashStep (h : Int) (c : Nat) : Int :=
  toInt32 (toInt32 (h * 32) - h + c)

/-- `hashString` followed by the call-site `Math.abs`. -/
def hashAbs (s : JSStr) : Nat :=
  (s.foldl hashStep 0).natAbs

/-- Private `selectTemplate` of the copy generator: index into the
template list by `hash % length`. The `none` branch is unreachable for
the non-empty concrete template lists below. -/
def selectTemplate (templates : List (JSStr → JSStr)) (input : JSStr) : JSStr :=
  match templates.get? (hashAbs input % templates.length) with
  | some f => f input
  | none => []

/-- `COPY_TEMPLATES.hero.headlineTemplates`. -/
def heroHeadlineTemplates : List (JSStr → JSStr) :=
  [fun appName => appName,
   fun appName => jstr ("Meet ") ++ appName,
   fun appName => jstr ("Introducing ") ++ appName]

/-- `COPY_TEMPLATES.hero.subheadlineTemplates` (code unit 39 is the
apostrophe in the first template). -/
def heroSubheadlineTemplates : List (JSStr → JSStr) :=
  [fun _ => jstr ("The app you") ++ [39] ++ jstr ("ve been waiting for"),
   fun _ => jstr ("Transform the way you work"),
   fun _ => jstr ("Built for modern teams")]

/-- `COPY_TEMPLATES.feature.headlineTemplates` (10003 is the check mark). -/
def featureHeadlineTemplates : List (JSStr → JSStr) :=
  [fun bullet => bullet,
   fun bullet => [10003, 32] ++ bullet]

/-- `COPY_TEMPLATES.feature.subheadlineTemplates`, parametrised by the
JS engine lowercasing table used by `toLowerCase`. -/
def featureSubheadlineTemplates (lower : JSStr → JSStr) : List (JSStr → JSStr) :=
  [fun bullet => jstr ("Experience ") ++ lower bullet,
   fun _ => jstr ("Designed to help you succeed"),
   fun _ => jstr ("Everything you need, simplified")]

/-- `COPY_TEMPLATES.closing.headlineTemplates`. -/
def closingHeadlineTemplates : List (JSStr → JSStr) :=
  [fun appName => jstr ("Get ") ++ appName ++ jstr (" Today"),
   fun _ => jstr ("Start Free"),
   fun appName => jstr ("Try ") ++ appName ++ jstr (" Free"),
   fun _ => jstr ("Download Now")]

/-- `COPY_TEMPLATES.closing.subheadlineTemplates`. -/
def closingSubheadlineTemplates : List (JSStr → JSStr) :=
  [fun _ => jstr ("Join thousands of happy users"),
   fun _ => jstr ("Available on iOS and Android"),
   fun _ => jstr ("No credit card required")]

def headlineTemplatesFor (t : SlideType) : List (JSStr → JSStr) :=
  match t with
  | .hero => heroHeadlineTemplates
  | .feature => featureHeadlineTemplates
  | .closing => closingHeadlineTemplates

def subheadlineTemplatesFor (lower : JSStr → JSStr) (t : SlideType) :
    List (JSStr → JSStr) :=
  match t with
  | .hero => heroSubheadlineTemplates
  | .feature => featureSubheadlineTemplates lower
  | .closing => closingSubheadlineTemplates

/-- `enforceHeadlineLimit`: at most 32 code units, preferring a word
boundary.  The JS guard is `lastSpace > HEADLINE_MAX_LENGTH * 0.7`, and
`32 * 0.7` evaluates in binary64 to `22.3999…`, so for the integer
`lastSpace` it is equivalent to `23 ≤ lastSpace`. -/
def enforceHeadlineLimit (text : JSStr) : JSStr :=
  if text.length ≤ HEADLINE_MAX_LENGTH then text
  else
    let truncated := text.take HEADLINE_MAX_LENGTH
    let lastSpace := jsLastIndexOf 32 truncated
    if 23 ≤ lastSpace then
      jsTrim (truncated.take lastSpace.toNat)
    else
      jsTrim (truncated.take (HEADLINE_MAX_LENGTH - 1)) ++ [8230]

/-- `enforceSubheadlineLimit`: at most 60 code units.  The JS guard is
`lastSpace > SUBHEADLINE_MAX_LENGTH * 0.7`, and `60 * 0.7` evaluates in
binary64 to exactly `42`, so for the integer `lastSpace` it is
equivalent to `43 ≤ lastSpace`. -/
def enforceSubheadlineLimit (text : JSStr) : JSStr :=
  if text.length ≤ SUBHEADLINE_MAX_LENGTH then text
  else
    let truncated := text.take SUBHEADLINE_MAX_LENGTH
    let lastSpace := jsLastIndexOf 32 truncated
    if 43 ≤ lastSpace then
      jsTrim (truncated.take lastSpace.toNat)
    else
      jsTrim (truncated.take (SUBHEADLINE_MAX_LENGTH - 1)) ++ [8230]

/-- `RuleBasedCopyGenerator.generateCopy`, parametrised by the engine
lowercasing table (`String.prototype.toLowerCase`). -/
def generateCopy (lower : JSStr → JSStr) (input : CopyGenerationInput) :
    GeneratedCopy :=
  let headline :=
    if input.slideType = .feature && jsTruthyOpt input.valueBullet then
      selectTemplate (headlineTemplatesFor input.slideType) (input.valueBullet.getD [])
    else
      selectTemplate (headlineTemplatesFor input.slideType) input.appName
  let subheadline :=
    selectTemplate (subheadlineTemplatesFor lower input.slideType)
      (if jsTruthyOpt input.valueBullet then input.valueBullet.getD [] else input.appName)
  let truncatedHeadline := enforceHeadlineLimit headline
  let truncatedSubheadline := enforceSubheadlineLimit subheadline
  { headline := truncatedHeadline
    subheadline := truncatedSubheadline
    locale := input.locale
    metadata :=
      { model := some (jstr ("rule-based"))
        truncated := !(headline == truncatedHeadline) || !(subheadline == truncatedSubheadline)
        fallbackUsed := false } }

end RuleBased

-- ============================================================================
-- Storyboard generation (src/application/services/StoryboardGenerator.ts)
-- ============================================================================

structure StoryboardGenerationResult where
  storyboard : Storyboard
  warnings : List JSStr
deriving DecidableEq

namespace StoryboardGenerator

/-- `generateHeroSlide`. -/
def generateHeroSlide (gen : CopyGenerationInput → GeneratedCopy)
    (input : StoryboardInput) (slideNumber : Nat) (shot : UploadedScreenshot) :
    Except String Slide := do
  let copy := gen
    { appName := input.appName
      slideType := .hero
      locale := input.locale
      brandContext := some { tone := some (jstr ("professional")) } }
  let text : SlideText := ⟨copy.headline, copy.subheadline, input.locale⟩
  let screenshotRef : SlideScreenshot := ⟨shot.id, shot.filename⟩
  let template ← selectTemplate .hero none
  pure { id := slideNumber, type := .hero, text := text,
         screenshot := screenshotRef, templateId := template.id }

/-- `generateFeatureSlide`: alternates the requested template id by the
parity of the slide number. -/
def generateFeatureSlide (gen : CopyGenerationInput → GeneratedCopy)
    (input : StoryboardInput) (slideNumber : Nat) (valueBullet : Option JSStr)
    (shot : UploadedScreenshot) : Except String Slide := do
  let copy := gen
    { appName := input.appName
      valueBullet := valueBullet
      slideType := .feature
      locale := input.locale }
  let text : SlideText := ⟨copy.headline, copy.subheadline, input.locale⟩
  let screenshotRef : SlideScreenshot := ⟨shot.id, shot.filename⟩
  let templateId := if slideNumber % 2 == 0 then jstr ("stack") else jstr ("split")
  let template ← selectTemplate .feature (some templateId)
  pure { id := slideNumber, type := .feature, text := text,
         screenshot := screenshotRef, templateId := template.id }

/-- `generateClosingSlide`. -/
def generateClosingSlide (gen : CopyGenerationInput → GeneratedCopy)
    (input : StoryboardInput) (slideNumber : Nat) (shot : UploadedScreenshot) :
    Except String Slide := do
  let copy := gen
    { appName := input.appName
      slideType := .closing
      locale := input.locale
      brandContext := some { tone := some (jstr ("professional")) } }
  let text : SlideText := ⟨copy.headline, copy.subheadline, input.locale⟩
  let screenshotRef : SlideScreenshot := ⟨shot.id, shot.filename⟩
  let template ← selectTemplate .closing none
  pure { id := slideNumber, type := .closing, text := text,
         screenshot := screenshotRef, templateId := template.id }

/-- `StoryboardGenerator.generate`, parametrised by the injected
`ICopyGenerator` and by the creation timestamp (`new Date().toISOString()`).
The feature loop (`i = 0, 1, 2`) is unrolled; `screenshots[k] ||
screenshots[0]` is index lookup with fallback to the first screenshot,
and a missing index records the corresponding warning string.  Reading
`screenshots[0]` of an empty array would throw a `TypeError` in JS; that
branch is unreachable once validation has required five screenshots. -/
def generate (gen : CopyGenerationInput → GeneratedCopy) (now : JSStr)
    (input : StoryboardInput) : Except String StoryboardGenerationResult := do
  validateStoryboardInput input.appName input.valueBullets input.screenshots
  let some shot0 := input.screenshots.get? 0
    | .error ("TypeError: cannot read properties of undefined")
  let heroSlide ← generateHeroSlide gen input 1 shot0
  let w2 := if (input.screenshots.get? 1).isNone then
      [jstr ("Slide 2: Using screenshot #1 (not enough screenshots provided)")] else []
  let f2 ← generateFeatureSlide gen input 2 (input.valueBullets.get? 0)
    ((input.screenshots.get? 1).getD shot0)
  let w3 := if (input.screenshots.get? 2).isNone then
      [jstr ("Slide 3: Using screenshot #1 (not enough screenshots provided)")] else []
  let f3 ← generateFeatureSlide gen input 3 (input.valueBullets.get? 1)
    ((input.screenshots.get? 2).getD shot0)
  let w4 := if (input.screenshots.get? 3).isNone then
      [jstr ("Slide 4: Using screenshot #1 (not enough screenshots provided)")] else []
  let f4 ← generateFeatureSlide gen input 4 (input.valueBullets.get? 2)
    ((input.screenshots.get? 3).getD shot0)
  let w5 := if (input.screenshots.get? 4).isNone then
      [jstr ("Slide 5: Using screenshot #1 (not enough screenshots provided)")] else []
  let closingSlide ← generateClosingSlide gen input 5
    ((input.screenshots.get? 4).getD shot0)
  let slides := [heroSlide, f2, f3, f4, closingSlide]
  if slides.length ≠ SLIDES_PER_STORYBOARD then
    .error ("Invalid storyboard: expected 5 slides")
  else
    pure { storyboard :=
             { appName := input.appName
               locale := input.locale
               slides := slides
               createdAt := now
               version := GENERATOR_VERSION }
           warnings := w2 ++ w3 ++ w4 ++ w5 }

/-- Replace the element at one index, leaving the list unchanged when the
index is out of range (the JS code copies the array and assigns one
slot). -/
def listSetAt {α : Type} : List α → Nat → (α → α) → List α
  | [], _, _ => []
  | a :: l, 0, f => f a :: l
  | a :: l, i + 1, f => a :: listSetAt l i f

/-- `updateScreenshotAssignment`: validates the 1-based slide id, then
returns a new storyboard whose targeted slide carries the new screenshot
reference. -/
def updateScreenshotAssignment (storyboard : Storyboard) (slideId : Int)
    (newScreenshotId : JSStr) (newFilename : JSStr) : Except String Storyboard :=
  if slideId < 1 ∨ slideId > (SLIDES_PER_STORYBOARD : Int) then
    .error ("Invalid slide ID: " ++ toString slideId ++ ". Must be 1-5")
  else
    .ok { storyboard with
          slides := listSetAt storyboard.slides (slideId - 1).toNat
            (fun s => { s with
              screenshot := { screenshotId := newScreenshotId
                              originalFilename := newFilename } }) }

/-- The `{headline?, subheadline?}` patch of `updateSlideText`. -/
structure SlideTextPatch where
  headline : Option JSStr := none
  subheadline : Option JSStr := none
deriving DecidableEq

/-- `updateSlideText`: validates the 1-based slide id, then replaces only
the provided text fields (`??` keeps the current value). -/
def updateSlideText (storyboard : Storyboard) (slideId : Int)
    (newText : SlideTextPatch) : Except String Storyboard :=
  if slideId < 1 ∨ slideId > (SLIDES_PER_STORYBOARD : Int) then
    .error ("Invalid slide ID: " ++ toString slideId ++ ". Must be 1-5")
  else
    .ok { storyboard with
          slides := listSetAt storyboard.slides (slideId - 1).toNat
            (fun s => { s with
              text := { headline := newText.headline.getD s.text.headline
                        subheadline := newText.subheadline.getD s.text.subheadline
                        locale := s.text.locale } }) }

end StoryboardGenerator

-- ============================================================================
-- Rendering (src/infrastructure/rendering/SharpRenderer.ts)
-- ============================================================================

/-- A byte buffer. -/
abbrev ImgBuffer := List Nat

/-- The Sharp pipeline value: the base canvas plus the recorded
compositions.  The pixel work itself happens inside the Sharp library. -/
inductive Canvas where
  | base (width : Nat) (height : Nat) (background : Rgb)
  | withScreenshot (c : Canvas) (screenshotBuffer : ImgBuffer)
      (screenshotPosition : ScreenshotPosition)
  | withText (c : Canvas) (text : SlideText) (textPosition : TextPosition)
deriving DecidableEq

/-- Result of Sharp `toBuffer({resolveWithObject: true})`: the PNG data
plus the reported `info.width`/`info.height`. -/
structure FlattenResult where
  data : ImgBuffer
  width : Nat
  height : Nat
deriving DecidableEq

structure RenderMetadata where
  targetId : JSStr
  slideId : Nat
  templateId : JSStr
deriving DecidableEq

structure RenderedImage where
  buffer : ImgBuffer
  width : Nat
  height : Nat
  format : JSStr
  metadata : RenderMetadata
deriving DecidableEq

/-- `SharpRenderer.createBaseCanvas`: a truthy brand color is routed
through `getBrandColor`, otherwise the first configured background color
is used (the solid and gradient branches compute the same expression);
the chosen color is parsed by `hexToRgb`, which throws on a non-hex
string. -/
def createBaseCanvas (target : DeviceTarget) (template : Template)
    (brandColor : Option JSStr) : Except String Canvas := do
  let bgConfig := template.background
  let backgroundColor :=
    if jsTruthyOpt brandColor then getBrandColor brandColor
    else bgConfig.colors.getD 0 []
  let rgb ← hexToRgb backgroundColor
  pure (.base target.width target.height rgb)

namespace SharpRenderer

/-- `SharpRenderer.render`, parametrised by the Sharp flattening step
(`png().toBuffer({resolveWithObject: true})`): resolve the template,
build the base canvas, record the screenshot and text compositions,
flatten, and fail unless the reported dimensions equal the target's. -/
def render (flatten : Canvas → FlattenResult) (target : DeviceTarget)
    (slide : Slide) (screenshotBuffer : ImgBuffer) (brandColor : Option JSStr) :
    Except String RenderedImage := do
  let template ← getTemplateById slide.templateId
  let canvas ← createBaseCanvas target template brandColor
  let withScreenshot := Canvas.withScreenshot canvas screenshotBuffer
    template.screenshotPosition
  let withText := Canvas.withText withScreenshot slide.text template.textPosition
  let finalImage := flatten withText
  if finalImage.width ≠ target.width ∨ finalImage.height ≠ target.height then
    .error ("Dimension mismatch")
  else
    pure { buffer := finalImage.data
           width := finalImage.width
           height := finalImage.height
           format := jstr ("png")
           metadata := { targetId := target.id, slideId := slide.id,
                         templateId := template.id } }

end SharpRenderer

-- ============================================================================
-- Export (src/infrastructure/export/ZipExportService.ts)
-- ============================================================================

structure RenderedImageInput where
  target : DeviceTarget
  slideId : Int
  buffer : ImgBuffer
deriving DecidableEq

structure ManifestTarget where
  platform : DevicePlatform
  width : Nat
  height : Nat
  fileCount : Nat
deriving DecidableEq

structure ManifestSlide where
  slideId : Nat
  headline : JSStr
  subheadline : JSStr
  screenshotId : JSStr
  templateId : JSStr
deriving DecidableEq

structure ExportManifest where
  appName : JSStr
  exportedAt : JSStr
  locale : JSStr
  targets : List ManifestTarget
  templatesUsed : List JSStr
  slides : List ManifestSlide
  generatorVersion : JSStr
deriving DecidableEq

/-- `Array.from(new Set(l))`: the distinct elements of `l`, keeping the
first occurrence of each (JS `Set` iterates in insertion order). -/
def jsSetFromArray {α : Type} [DecidableEq α] : List α → List α
  | [] => []
  | a :: l => a :: jsSetFromArray (l.filter (fun b => ¬ b = a))
termination_by l => l.length
decreasing_by
  simp only [List.length_cons]
  exact Nat.lt_succ_of_le (List.length_filter_le _ _)

/-- A ZIP entry content: raw image bytes, or the JSON-serialised
manifest (`JSON.stringify` is a library call; the manifest value is
recorded). -/
inductive ZipContent where
  | bytes (b : ImgBuffer)
  | manifestJson (m : ExportManifest)
deriving DecidableEq

structure ZipEntry where
  filename : JSStr
  content : ZipContent
deriving DecidableEq

/-- `zip.file(name, content)`: JSZip replaces an existing entry with the
same name, otherwise appends. -/
def zipFile (entries : List ZipEntry) (filename : JSStr) (content : ZipContent) :
    List ZipEntry :=
  if entries.any (fun e => e.filename == filename) then
    entries.map (fun e => if e.filename == filename then ⟨filename, content⟩ else e)
  else
    entries ++ [⟨filename, content⟩]

structure ExportResult where
  zipBuffer : ImgBuffer
  entries : List ZipEntry
  fileCount : Nat
  sizeBytes : Nat
  manifest : ExportManifest
deriving DecidableEq

namespace ZipExportService

/-- `ZipExportService.generateManifest`, parametrised by the export
timestamp (`new Date().toISOString()`). -/
def generateManifest (now : JSStr) (storyboard : Storyboard)
    (targets : List DeviceTarget) (renderedImages : List RenderedImageInput) :
    ExportManifest :=
  { appName := storyboard.appName
    exportedAt := now
    locale := storyboard.locale
    targets := targets.map (fun target =>
      { platform := target.platform
        width := target.width
        height := target.height
        fileCount :=
          (renderedImages.filter (fun img => img.target.id == target.id)).length })
    templatesUsed := jsSetFromArray (storyboard.slides.map (fun s => s.templateId))
    slides := storyboard.slides.map (fun slide =>
      { slideId := slide.id
        headline := slide.text.headline
        subheadline := slide.text.subheadline
        screenshotId := slide.screenshot.screenshotId
        templateId := slide.templateId })
    generatorVersion := GENERATOR_VERSION }

/-- One iteration of the image loop of `exportAsZip`:
`zip.file(generateFilename(image.target.platform, image.slideId),
image.buffer)`. -/
def addImageEntry (acc : List ZipEntry) (image : RenderedImageInput) :
    Except String (List ZipEntry) := do
  let filename ← generateFilename image.target.platform image.slideId
  pure (zipFile acc filename (.bytes image.buffer))

/-- `ZipExportService.exportAsZip`, parametrised by the JSZip compressor
(`generateAsync`) and the export timestamp: each rendered image is added
under its deterministic filename, the manifest is added as
`manifest.json`, and the reported file count is images plus one. -/
def exportAsZip (zipGen : List ZipEntry → ImgBuffer) (now : JSStr)
    (storyboard : Storyboard) (targets : List DeviceTarget)
    (renderedImages : List RenderedImageInput) : Except String ExportResult := do
  let entries ← renderedImages.foldlM addImageEntry ([] : List ZipEntry)
  let manifest := generateManifest now storyboard targets renderedImages
  let entries := zipFile entries MANIFEST_FILENAME (.manifestJson manifest)
  let zipBuffer := zipGen entries
  pure { zipBuffer := zipBuffer
         entries := entries
         fileCount := renderedImages.length + 1
         sizeBytes := zipBuffer.length
         manifest := manifest }

end ZipExportService

-- ============================================================================
-- Helper lemmas
-- ============================================================================

lemma length_jsTrim_le (s : JSStr) : (jsTrim s).length ≤ s.length := by
  unfold jsTrim
  rw [List.length_reverse]
  calc ((s.dropWhile isJsWhitespace).reverse.dropWhile isJsWhitespace).length
      ≤ (s.dropWhile isJsWhitespace).reverse.length :=
        (List.dropWhile_sublist _).length_le
    _ = (s.dropWhile isJsWhitespace).length := List.length_reverse _
    _ ≤ s.length := (List.dropWhile_sublist _).length_le

lemma getTemplateById_ok {id : JSStr} {t : Template}
    (h : getTemplateById id = .ok t) : t ∈ TEMPLATES ∧ t.id = id := by
  unfold getTemplateById at h
  cases hf : TEMPLATES.find? (fun u => u.id == id) with
  | none => rw [hf] at h; exact absurd h (by simp)
  | some u =>
    rw [hf] at h
    have hut : u = t := by injection h
    subst hut
    refine ⟨List.mem_of_find?_eq_some hf, ?_⟩
    have := List.find?_some hf
    simpa using this

lemma template_ids_nonempty : ∀ t ∈ TEMPLATES, t.id ≠ [] := by decide

lemma get?_is_some_of_lt {α : Type} {l : List α} {n : Nat} (h : n < l.length) :
    ∃ x, l.get? n = some x := ⟨_, List.get?_eq_get h⟩

lemma validate_ok_bounds {α : Type} {appName : JSStr} {bullets : List JSStr}
    {shots : List α}
    (h : validateStoryboardInput appName bullets shots = .ok ()) :
    5 ≤ shots.length ∧ shots.length ≤ 10 ∧
    3 ≤ bullets.length ∧ bullets.length ≤ 6 := by
  unfold validateStoryboardInput at h
  split_ifs at h <;>
    simp_all [SCREENSHOTS_MIN, SCREENSHOTS_MAX, VALUE_BULLETS_MIN,
      VALUE_BULLETS_MAX, APP_NAME_MAX_LENGTH]

-- ============================================================================
-- Claim theorems
-- ============================================================================

/-- Claim C10: `generateFilename` rejects with an error for every slide
number outside 1..5, and returns a filename for every slide number in
1..5. -/
theorem c10_generateFilename_range (p : DevicePlatform) (n : Int) :
    ((n < 1 ∨ 5 < n) → ∃ e, generateFilename p n = .error e) ∧
    (1 ≤ n → n ≤ 5 → ∃ f, generateFilename p n = .ok f) := by
  constructor
  · intro h
    unfold generateFilename
    rw [if_pos]
    · exact ⟨_, rfl⟩
    · simpa [SLIDES_PER_STORYBOARD] using h
  · intro h1 h5
    unfold generateFilename
    rw [if_neg]
    · cases p <;> exact ⟨_, rfl⟩
    · simp [SLIDES_PER_STORYBOARD]; omega

/-- Witness for C10 at platform `iPhone`, slide numbers 0 and 3. -/
theorem c10_generateFilename_range_witness :
    (∃ e, generateFilename .iPhone 0 = .error e) ∧
    (∃ f, generateFilename .iPhone 3 = .ok f) :=
  ⟨(c10_generateFilename_range .iPhone 0).1 (by decide),
   (c10_generateFilename_range .iPhone 3).2 (by decide) (by decide)⟩

/-- Claim C5: a requested template id that resolves to a template
applicable to the slide type is returned as-is; a resolvable but
inapplicable id, or an unresolvable id, falls back to the slide type's
configured default (which is not the requested template); with no id the
default is returned directly. -/
theorem c5_selectTemplate_contract (ty : SlideType) (id : JSStr) (t : Template) :
    (getTemplateById id = .ok t → ty ∈ t.applicableTypes →
      selectTemplate ty (some id) = .ok t) ∧
    (getTemplateById id = .ok t → ty ∉ t.applicableTypes →
      ∃ d, selectTemplate ty (some id) = .ok d ∧
        d.id = DEFAULT_TEMPLATE_BY_TYPE ty ∧ d ≠ t) ∧
    ((∃ e, getTemplateById id = .error e) →
      selectTemplate ty (some id) = getDefaultTemplateForSlideType ty) ∧
    (selectTemplate ty none = getDefaultTemplateForSlideType ty ∧
      ∃ d, getDefaultTemplateForSlideType ty = .ok d ∧
        d.id = DEFAULT_TEMPLATE_BY_TYPE ty) := by
  have htruthy : ∀ u : Template, u ∈ TEMPLATES → u.id = id →
      jsTruthyOpt (some id) = true := by
    intro u hmem hid
    have : id ≠ [] := hid ▸ template_ids_nonempty u hmem
    simp [jsTruthyOpt, jsTruthyStr, List.isEmpty_iff, this]
  refine ⟨?_, ?_, ?_, ?_⟩
  · intro hok happ
    obtain ⟨hmem, hid⟩ := getTemplateById_ok hok
    unfold selectTemplate
    rw [htruthy t hmem hid]
    simp only [if_true, Option.getD_some, hok, if_pos happ]
  · intro hok happ
    obtain ⟨hmem, hid⟩ := getTemplateById_ok hok
    unfold selectTemplate
    rw [htruthy t hmem hid]
    simp only [if_true, Option.getD_some, hok, if_neg happ]
    cases ty with
    | hero =>
      refine ⟨HERO_TEMPLATE, rfl, rfl, ?_⟩
      intro he; exact happ (he ▸ (by decide : SlideType.hero ∈ HERO_TEMPLATE.applicableTypes))
    | feature =>
      refine ⟨STACK_TEMPLATE, rfl, rfl, ?_⟩
      intro he; exact happ (he ▸ (by decide : SlideType.feature ∈ STACK_TEMPLATE.applicableTypes))
    | closing =>
      refine ⟨CLOSING_TEMPLATE, rfl, rfl, ?_⟩
      intro he; exact happ (he ▸ (by decide : SlideType.closing ∈ CLOSING_TEMPLATE.applicableTypes))
  · rintro ⟨e, herr⟩
    unfold selectTemplate
    cases hj : jsTruthyOpt (some id) with
    | false => simp only [Bool.false_eq_true, if_false]
    | true => simp only [if_true, Option.getD_some, herr]
  · refine ⟨rfl, ?_⟩
    cases ty with
    | hero => exact ⟨HERO_TEMPLATE, rfl, rfl⟩
    | feature => exact ⟨STACK_TEMPLATE, rfl, rfl⟩
    | closing => exact ⟨CLOSING_TEMPLATE, rfl, rfl⟩

/-- Witness for C5: a feature slide gets the requested `split` template
when asked for it, falls back to `stack` when asked for the hero-only
`hero` template, falls back when asked for an unknown id, and gets
`stack` with no id. -/
theorem c5_selectTemplate_contract_witness :
    selectTemplate .feature (some (jstr ("split"))) = .ok SPLIT_TEMPLATE ∧
    (∃ d, selectTemplate .feature (some (jstr ("hero"))) = .ok d ∧
      d.id = DEFAULT_TEMPLATE_BY_TYPE .feature ∧ d ≠ HERO_TEMPLATE) ∧
    selectTemplate .feature (some (jstr ("nope"))) =
      getDefaultTemplateForSlideType .feature ∧
    selectTemplate .feature none = getDefaultTemplateForSlideType .feature :=
  ⟨(c5_selectTemplate_contract .feature (jstr ("split")) SPLIT_TEMPLATE).1
      (by rfl) (by decide),
   (c5_selectTemplate_contract .feature (jstr ("hero")) HERO_TEMPLATE).2.1
      (by rfl) (by decide),
   (c5_selectTemplate_contract .feature (jstr ("nope")) HERO_TEMPLATE).2.2.1
      ⟨"Template not found", by rfl⟩,
   (c5_selectTemplate_contract .feature (jstr ("nope")) HERO_TEMPLATE).2.2.2.1⟩

/-- Counterexample to claim C3 as stated: with the invalid brand color
`"#GGGGGG"` on the `stack` template, the base canvas is filled with the
theme default `#0ea5e9` (rgb 14, 165, 233), which differs from the
template's own first background color `#ffffff` (rgb 255, 255, 255). -/
theorem c3_counterexample :
    createBaseCanvas IPHONE_TARGET STACK_TEMPLATE (some (jstr ("#GGGGGG"))) =
      .ok (.base 1290 2796 ⟨14, 165, 233⟩) ∧
    STACK_TEMPLATE.background.colors.getD 0 [] = jstr ("#ffffff") ∧
    hexToRgb (jstr ("#ffffff")) = .ok ⟨255, 255, 255⟩ ∧
    (⟨14, 165, 233⟩ : Rgb) ≠ ⟨255, 255, 255⟩ := by
  refine ⟨by rfl, by rfl, by rfl, by decide⟩

/-- Claim C3 (amended): when render is called with a non-empty invalid
brand color string such as `"#GGGGGG"`, the brand color is not applied
and the base canvas is filled with the theme default brand color
`COLORS.primary[500]` (`#0ea5e9`, the `getBrandColor` fallback) —
regardless of the template's configured background colors — and the call
does not raise because of the invalid color. -/
theorem c3_invalid_brand_color_fallback (target : DeviceTarget)
    (template : Template) (brand : JSStr) (hne : brand ≠ [])
    (hinv : isValidHexColor brand = false) :
    createBaseCanvas target template (some brand) =
      .ok (.base target.width target.height ⟨14, 165, 233⟩) ∧
    hexToRgb COLORS_primary500 = .ok ⟨14, 165, 233⟩ := by
  have htruthy : jsTruthyOpt (some brand) = true := by
    simp [jsTruthyOpt, jsTruthyStr, List.isEmpty_iff, hne]
  have hbc : getBrandColor (some brand) = COLORS_primary500 := by
    unfold getBrandColor
    rw [if_neg]
    simp [htruthy, hinv]
  refine ⟨?_, by rfl⟩
  unfold createBaseCanvas
  rw [htruthy]
  simp only [if_true, hbc]
  rfl

/-- Witness for C3 (amended) at the iPhone target, `stack` template,
brand color `"#GGGGGG"`. -/
theorem c3_invalid_brand_color_fallback_witness :
    createBaseCanvas IPHONE_TARGET STACK_TEMPLATE (some (jstr ("#GGGGGG"))) =
      .ok (.base IPHONE_TARGET.width IPHONE_TARGET.height ⟨14, 165, 233⟩) ∧
    hexToRgb COLORS_primary500 = .ok ⟨14, 165, 233⟩ :=
  c3_invalid_brand_color_fallback IPHONE_TARGET STACK_TEMPLATE
    (jstr ("#GGGGGG")) (by decide) (by rfl)

/-- Counterexample to claim C4 as stated: with an otherwise-valid input
carrying only four screenshots, `generate` does not succeed with a
warning — input validation rejects it (`SCREENSHOTS_MIN` is 5). -/
theorem c4_counterexample :
    StoryboardGenerator.generate
        (fun i => { headline := i.appName, subheadline := i.appName,
                    locale := i.locale, metadata := {} })
        (jstr ("2024-01-01T00:00:00.000Z"))
        { appName := jstr ("MyApp")
          valueBullets := [jstr ("Fast and intuitive"), jstr ("Works offline"),
                           jstr ("Sync across devices")]
          screenshots :=
            [⟨jstr ("s1"), jstr ("a1.png"), jstr ("image/png"), 1⟩,
             ⟨jstr ("s2"), jstr ("a2.png"), jstr ("image/png"), 1⟩,
             ⟨jstr ("s3"), jstr ("a3.png"), jstr ("image/png"), 1⟩,
             ⟨jstr ("s4"), jstr ("a4.png"), jstr ("image/png"), 1⟩]
          brandColor := none
          locale := jstr ("en-US") } =
      .error ("At least 5 screenshots are required") := by
  rfl

/-- Claim C4 (amended): calling `generate` with otherwise-valid input
that supplies only 4 screenshots does not succeed: validation rejects it
with the error `At least 5 screenshots are required`, and no storyboard
or warning is produced.  (The screenshot-reuse warning path in `generate`
is unreachable, because validation requires at least five screenshots
and the fallback only triggers for indices past the end.) -/
theorem c4_four_screenshots_rejected (gen : CopyGenerationInput → GeneratedCopy)
    (now : JSStr) (input : StoryboardInput)
    (hname : jsTruthyStr input.appName = true)
    (htrim : (jsTrim input.appName).length ≠ 0)
    (hlen : input.appName.length ≤ 50)
    (hbl : 3 ≤ input.valueBullets.length)
    (hbu : input.valueBullets.length ≤ 6)
    (hs : input.screenshots.length = 4) :
    StoryboardGenerator.generate gen now input =
      .error ("At least 5 screenshots are required") := by
  have hv : validateStoryboardInput input.appName input.valueBullets
      input.screenshots = .error ("At least 5 screenshots are required") := by
    unfold validateStoryboardInput
    rw [if_neg (by simp [hname, htrim]),
        if_neg (by simp [APP_NAME_MAX_LENGTH]; omega),
        if_neg (by simp [VALUE_BULLETS_MIN]; omega),
        if_neg (by simp [VALUE_BULLETS_MAX]; omega),
        if_pos (by simp [SCREENSHOTS_MIN]; omega)]
  unfold StoryboardGenerator.generate
  rw [hv]
  rfl

/-- Witness for C4 (amended) on a concrete four-screenshot input. -/
theorem c4_four_screenshots_rejected_witness :
    StoryboardGenerator.generate
        (fun i => { headline := i.appName, subheadline := i.appName,
                    locale := i.locale, metadata := {} })
        (jstr ("2024-01-02T00:00:00.000Z"))
        { appName := jstr ("OtherApp")
          valueBullets := [jstr ("One"), jstr ("Two"), jstr ("Three")]
          screenshots :=
            [⟨jstr ("t1"), jstr ("b1.png"), jstr ("image/png"), 1⟩,
             ⟨jstr ("t2"), jstr ("b2.png"), jstr ("image/png"), 1⟩,
             ⟨jstr ("t3"), jstr ("b3.png"), jstr ("image/png"), 1⟩,
             ⟨jstr ("t4"), jstr ("b4.png"), jstr ("image/png"), 1⟩]
          brandColor := none
          locale := jstr ("en-US") } =
      .error ("At least 5 screenshots are required") :=
  c4_four_screenshots_rejected _ _ _ (by rfl) (by decide) (by decide)
    (by decide) (by decide) (by rfl)

lemma enforceHeadlineLimit_length_le (t : JSStr) :
    (RuleBased.enforceHeadlineLimit t).length ≤ 32 := by
  unfold RuleBased.enforceHeadlineLimit
  split_ifs with h1
  · simpa [HEADLINE_MAX_LENGTH] using h1
  dsimp only
  split_ifs with h2
  · refine le_trans (length_jsTrim_le _) ?_
    rw [List.length_take, List.length_take]
    simp only [HEADLINE_MAX_LENGTH]
    omega
  · rw [List.length_append, List.length_singleton]
    have hle : (jsTrim ((t.take HEADLINE_MAX_LENGTH).take (HEADLINE_MAX_LENGTH - 1))).length ≤ 31 := by
      refine le_trans (length_jsTrim_le _) ?_
      rw [List.length_take, List.length_take]
      simp only [HEADLINE_MAX_LENGTH]
      omega
    omega

lemma enforceSubheadlineLimit_length_le (t : JSStr) :
    (RuleBased.enforceSubheadlineLimit t).length ≤ 60 := by
  unfold RuleBased.enforceSubheadlineLimit
  split_ifs with h1
  · simpa [SUBHEADLINE_MAX_LENGTH] using h1
  dsimp only
  split_ifs with h2
  · refine le_trans (length_jsTrim_le _) ?_
    rw [List.length_take, List.length_take]
    simp only [SUBHEADLINE_MAX_LENGTH]
    omega
  · rw [List.length_append, List.length_singleton]
    have hle : (jsTrim ((t.take SUBHEADLINE_MAX_LENGTH).take (SUBHEADLINE_MAX_LENGTH - 1))).length ≤ 59 := by
      refine le_trans (length_jsTrim_le _) ?_
      rw [List.length_take, List.length_take]
      simp only [SUBHEADLINE_MAX_LENGTH]
      omega
    omega

/-- Claim C9: for every input to the rule-based copy generator (any app
name, value bullet, slide type, and locale, and any engine lowercasing
table), the returned headline is at most 32 code units long and the
returned subheadline at most 60. -/
theorem c9_copy_length_limits (lower : JSStr → JSStr)
    (input : CopyGenerationInput) :
    (RuleBased.generateCopy lower input).headline.length ≤ HEADLINE_MAX_LENGTH ∧
    (RuleBased.generateCopy lower input).subheadline.length ≤ SUBHEADLINE_MAX_LENGTH :=
  ⟨enforceHeadlineLimit_length_le _, enforceSubheadlineLimit_length_le _⟩

/-- Claim C2: for every input accepted by validation and every copy
generator, `generate` succeeds and returns a storyboard with exactly 5
slides whose ids are 1..5 in order and whose types are
hero, feature, feature, feature, closing. -/
theorem c2_generate_five_slides (gen : CopyGenerationInput → GeneratedCopy)
    (now : JSStr) (input : StoryboardInput)
    (hv : validateStoryboardInput input.appName input.valueBullets
      input.screenshots = .ok ()) :
    ∃ res, StoryboardGenerator.generate gen now input = .ok res ∧
      res.storyboard.slides.length = 5 ∧
      res.storyboard.slides.map (fun s => s.id) = [1, 2, 3, 4, 5] ∧
      res.storyboard.slides.map (fun s => s.type) =
        [.hero, .feature, .feature, .feature, .closing] := by
  have hlen : 5 ≤ input.screenshots.length := (validate_ok_bounds hv).1
  obtain ⟨s0, h0⟩ := get?_is_some_of_lt (l := input.screenshots) (n := 0) (by omega)
  obtain ⟨s1, h1⟩ := get?_is_some_of_lt (l := input.screenshots) (n := 1) (by omega)
  obtain ⟨s2, h2⟩ := get?_is_some_of_lt (l := input.screenshots) (n := 2) (by omega)
  obtain ⟨s3, h3⟩ := get?_is_some_of_lt (l := input.screenshots) (n := 3) (by omega)
  obtain ⟨s4, h4⟩ := get?_is_some_of_lt (l := input.screenshots) (n := 4) (by omega)
  unfold StoryboardGenerator.generate
  rw [hv, h0, h1, h2, h3, h4]
  exact ⟨_, rfl, rfl, rfl, rfl⟩

/-- Witness for C2 on a concrete five-screenshot input and a trivial
copy generator. -/
theorem c2_generate_five_slides_witness :
    ∃ res, StoryboardGenerator.generate
        (fun i => { headline := i.appName, subheadline := i.appName,
                    locale := i.locale, metadata := {} })
        (jstr ("2024-01-03T00:00:00.000Z"))
        { appName := jstr ("MyApp")
          valueBullets := [jstr ("Fast and intuitive"), jstr ("Works offline"),
                           jstr ("Sync across devices")]
          screenshots :=
            [⟨jstr ("s1"), jstr ("a1.png"), jstr ("image/png"), 1⟩,
             ⟨jstr ("s2"), jstr ("a2.png"), jstr ("image/png"), 1⟩,
             ⟨jstr ("s3"), jstr ("a3.png"), jstr ("image/png"), 1⟩,
             ⟨jstr ("s4"), jstr ("a4.png"), jstr ("image/png"), 1⟩,
             ⟨jstr ("s5"), jstr ("a5.png"), jstr ("image/png"), 1⟩]
          brandColor := none
          locale := jstr ("en-US") } = .ok res ∧
      res.storyboard.slides.length = 5 ∧
      res.storyboard.slides.map (fun s => s.id) = [1, 2, 3, 4, 5] ∧
      res.storyboard.slides.map (fun s => s.type) =
        [.hero, .feature, .feature, .feature, .closing] :=
  c2_generate_five_slides _ _ _ (by rfl)

lemma zipFile_append (es : List ZipEntry) (f : JSStr) (c : ZipContent)
    (h : ∀ e ∈ es, e.filename ≠ f) : zipFile es f c = es ++ [⟨f, c⟩] := by
  unfold zipFile
  rw [if_neg]
  intro hany
  obtain ⟨e, he, hef⟩ := List.any_eq_true.mp hany
  exact h e he (by simpa using hef)

lemma foldlM_addImageEntry {imgs : List RenderedImageInput}
    {fnames : List JSStr}
    (hf : List.Forall₂ (fun (i : RenderedImageInput) (f : JSStr) =>
      generateFilename i.target.platform i.slideId = .ok f) imgs fnames) :
    ∀ acc : List ZipEntry,
      (∀ f ∈ fnames, ∀ e ∈ acc, e.filename ≠ f) →
      fnames.Nodup →
      ∃ es, imgs.foldlM ZipExportService.addImageEntry acc = .ok es ∧
        es.map (fun e => e.filename) = acc.map (fun e => e.filename) ++ fnames := by
  induction hf with
  | nil => exact fun acc _ _ => ⟨acc, rfl, by simp⟩
  | @cons i f is fs hpair htail ih =>
    intro acc hacc hnodup
    have hstep : ZipExportService.addImageEntry acc i =
        .ok (acc ++ [⟨f, .bytes i.buffer⟩]) := by
      unfold ZipExportService.addImageEntry
      rw [hpair]
      show Except.ok (zipFile acc f (.bytes i.buffer)) = _
      rw [zipFile_append acc f _ (fun e he => hacc f (by simp) e he)]
    have hcol : ∀ g ∈ fs, ∀ e ∈ acc ++ [⟨f, ZipContent.bytes i.buffer⟩],
        e.filename ≠ g := by
      intro g hg e he
      rcases List.mem_append.mp he with he1 | he2
      · exact hacc g (by simp [hg]) e he1
      · have he3 : e = ⟨f, ZipContent.bytes i.buffer⟩ := by simpa using he2
        subst he3
        show f ≠ g
        intro hfg
        exact (List.nodup_cons.mp hnodup).1 (by rw [hfg]; exact hg)
    obtain ⟨es, hes, hnames⟩ :=
      ih (acc ++ [⟨f, .bytes i.buffer⟩]) hcol (List.nodup_cons.mp hnodup).2
    refine ⟨es, ?_, ?_⟩
    · rw [List.foldlM_cons, hstep]
      exact hes
    · rw [hnames]
      simp

/-- All the way through `exportAsZip`: when every image's filename
resolves, the resolved names are distinct, and none of them is
`manifest.json`, the ZIP holds exactly those names followed by
`manifest.json`, and the file count is images plus one. -/
lemma exportAsZip_names (zipGen : List ZipEntry → ImgBuffer) (now : JSStr)
    (sb : Storyboard) (targets : List DeviceTarget)
    {imgs : List RenderedImageInput} {fnames : List JSStr}
    (hf : List.Forall₂ (fun (i : RenderedImageInput) (f : JSStr) =>
      generateFilename i.target.platform i.slideId = .ok f) imgs fnames)
    (hnodup : fnames.Nodup) (hman : MANIFEST_FILENAME ∉ fnames) :
    ∃ r, ZipExportService.exportAsZip zipGen now sb targets imgs = .ok r ∧
      r.entries.map (fun e => e.filename) = fnames ++ [MANIFEST_FILENAME] ∧
      r.entries.length = fnames.length + 1 ∧
      r.fileCount = imgs.length + 1 := by
  obtain ⟨es, hes, hnames⟩ := foldlM_addImageEntry hf [] (by simp) hnodup
  simp only [List.map_nil, List.nil_append] at hnames
  have hz : zipFile es MANIFEST_FILENAME
      (.manifestJson (ZipExportService.generateManifest now sb targets imgs)) =
      es ++ [⟨MANIFEST_FILENAME,
        .manifestJson (ZipExportService.generateManifest now sb targets imgs)⟩] := by
    refine zipFile_append es _ _ ?_
    intro e he hef
    exact hman (hef ▸ hnames ▸ List.mem_map_of_mem (fun e => e.filename) he)
  have hexp : ZipExportService.exportAsZip zipGen now sb targets imgs =
      .ok { zipBuffer := zipGen (zipFile es MANIFEST_FILENAME
              (.manifestJson (ZipExportService.generateManifest now sb targets imgs)))
            entries := zipFile es MANIFEST_FILENAME
              (.manifestJson (ZipExportService.generateManifest now sb targets imgs))
            fileCount := imgs.length + 1
            sizeBytes := (zipGen (zipFile es MANIFEST_FILENAME
              (.manifestJson (ZipExportService.generateManifest now sb targets imgs)))).length
            manifest := ZipExportService.generateManifest now sb targets imgs } := by
    unfold ZipExportService.exportAsZip
    rw [hes]
    rfl
  refine ⟨_, hexp, ?_, ?_, ?_⟩
  · dsimp only
    rw [hz, List.map_append, hnames]
    rfl
  · dsimp only
    rw [hz, List.length_append]
    have hl : es.length = fnames.length := by
      rw [← hnames, List.length_map]
    simp [hl]
  · rfl

/-- Claim C6: exporting a 5-slide storyboard with the two fixed device
targets and one rendered image per (target, slide) pair yields a ZIP
with exactly 11 entries — `iphone_01.png`..`iphone_05.png`,
`ipad_01.png`..`ipad_05.png`, and `manifest.json` — and the returned
file count is the number of rendered images plus one. -/
theorem c6_export_entries (zipGen : List ZipEntry → ImgBuffer) (now : JSStr)
    (sb : Storyboard) (buf : DeviceTarget → Int → ImgBuffer)
    (h5 : sb.slides.length = 5) :
    ∃ r, ZipExportService.exportAsZip zipGen now sb DEVICE_TARGETS
        [⟨IPHONE_TARGET, 1, buf IPHONE_TARGET 1⟩,
         ⟨IPHONE_TARGET, 2, buf IPHONE_TARGET 2⟩,
         ⟨IPHONE_TARGET, 3, buf IPHONE_TARGET 3⟩,
         ⟨IPHONE_TARGET, 4, buf IPHONE_TARGET 4⟩,
         ⟨IPHONE_TARGET, 5, buf IPHONE_TARGET 5⟩,
         ⟨IPAD_TARGET, 1, buf IPAD_TARGET 1⟩,
         ⟨IPAD_TARGET, 2, buf IPAD_TARGET 2⟩,
         ⟨IPAD_TARGET, 3, buf IPAD_TARGET 3⟩,
         ⟨IPAD_TARGET, 4, buf IPAD_TARGET 4⟩,
         ⟨IPAD_TARGET, 5, buf IPAD_TARGET 5⟩] = .ok r ∧
      r.entries.map (fun e => e.filename) =
        [jstr ("iphone_01.png"), jstr ("iphone_02.png"), jstr ("iphone_03.png"),
         jstr ("iphone_04.png"), jstr ("iphone_05.png"), jstr ("ipad_01.png"),
         jstr ("ipad_02.png"), jstr ("ipad_03.png"), jstr ("ipad_04.png"),
         jstr ("ipad_05.png"), jstr ("manifest.json")] ∧
      r.entries.length = 11 ∧
      r.fileCount = 10 + 1 := by
  have hf : List.Forall₂ (fun (i : RenderedImageInput) (f : JSStr) =>
      generateFilename i.target.platform i.slideId = .ok f)
      [⟨IPHONE_TARGET, 1, buf IPHONE_TARGET 1⟩,
       ⟨IPHONE_TARGET, 2, buf IPHONE_TARGET 2⟩,
       ⟨IPHONE_TARGET, 3, buf IPHONE_TARGET 3⟩,
       ⟨IPHONE_TARGET, 4, buf IPHONE_TARGET 4⟩,
       ⟨IPHONE_TARGET, 5, buf IPHONE_TARGET 5⟩,
       ⟨IPAD_TARGET, 1, buf IPAD_TARGET 1⟩,
       ⟨IPAD_TARGET, 2, buf IPAD_TARGET 2⟩,
       ⟨IPAD_TARGET, 3, buf IPAD_TARGET 3⟩,
       ⟨IPAD_TARGET, 4, buf IPAD_TARGET 4⟩,
       ⟨IPAD_TARGET, 5, buf IPAD_TARGET 5⟩]
      [jstr ("iphone_01.png"), jstr ("iphone_02.png"), jstr ("iphone_03.png"),
       jstr ("iphone_04.png"), jstr ("iphone_05.png"), jstr ("ipad_01.png"),
       jstr ("ipad_02.png"), jstr ("ipad_03.png"), jstr ("ipad_04.png"),
       jstr ("ipad_05.png")] := by
    refine .cons (by rfl) (.cons (by rfl) (.cons (by rfl) (.cons (by rfl)
      (.cons (by rfl) (.cons (by rfl) (.cons (by rfl) (.cons (by rfl)
      (.cons (by rfl) (.cons (by rfl) .nil)))))))))
  obtain ⟨r, hr, hnames, hlen, hfc⟩ :=
    exportAsZip_names zipGen now sb DEVICE_TARGETS hf (by decide) (by decide)
  refine ⟨r, hr, ?_, ?_, ?_⟩
  · rw [hnames]
    decide
  · rw [hlen]
    decide
  · rw [hfc]
    rfl

/-- Witness for C6 on a concrete five-slide storyboard with trivial
buffers and compressor. -/
theorem c6_export_entries_witness :
    ∃ r, ZipExportService.exportAsZip (fun _ => []) (jstr ("2024-01-04"))
        { appName := jstr ("MyApp")
          locale := jstr ("en-US")
          slides :=
            [⟨1, .hero, ⟨jstr ("h"), jstr ("s"), jstr ("en-US")⟩,
               ⟨jstr ("s1"), jstr ("a1.png")⟩, jstr ("hero")⟩,
             ⟨2, .feature, ⟨jstr ("h"), jstr ("s"), jstr ("en-US")⟩,
               ⟨jstr ("s2"), jstr ("a2.png")⟩, jstr ("stack")⟩,
             ⟨3, .feature, ⟨jstr ("h"), jstr ("s"), jstr ("en-US")⟩,
               ⟨jstr ("s3"), jstr ("a3.png")⟩, jstr ("split")⟩,
             ⟨4, .feature, ⟨jstr ("h"), jstr ("s"), jstr ("en-US")⟩,
               ⟨jstr ("s4"), jstr ("a4.png")⟩, jstr ("stack")⟩,
             ⟨5, .closing, ⟨jstr ("h"), jstr ("s"), jstr ("en-US")⟩,
               ⟨jstr ("s5"), jstr ("a5.png")⟩, jstr ("closing")⟩]
          createdAt := jstr ("2024-01-04")
          version := GENERATOR_VERSION } DEVICE_TARGETS
        [⟨IPHONE_TARGET, 1, []⟩, ⟨IPHONE_TARGET, 2, []⟩, ⟨IPHONE_TARGET, 3, []⟩,
         ⟨IPHONE_TARGET, 4, []⟩, ⟨IPHONE_TARGET, 5, []⟩, ⟨IPAD_TARGET, 1, []⟩,
         ⟨IPAD_TARGET, 2, []⟩, ⟨IPAD_TARGET, 3, []⟩, ⟨IPAD_TARGET, 4, []⟩,
         ⟨IPAD_TARGET, 5, []⟩] = .ok r ∧
      r.entries.map (fun e => e.filename) =
        [jstr ("iphone_01.png"), jstr ("iphone_02.png"), jstr ("iphone_03.png"),
         jstr ("iphone_04.png"), jstr ("iphone_05.png"), jstr ("ipad_01.png"),
         jstr ("ipad_02.png"), jstr ("ipad_03.png"), jstr ("ipad_04.png"),
         jstr ("ipad_05.png"), jstr ("manifest.json")] ∧
      r.entries.length = 11 ∧
      r.fileCount = 10 + 1 :=
  c6_export_entries (fun _ => []) (jstr ("2024-01-04")) _ (fun _ _ => []) (by rfl)

lemma jsSetFromArray_cons {α : Type} [DecidableEq α] (a : α) (l : List α) :
    jsSetFromArray (a :: l) = a :: jsSetFromArray (l.filter (fun b => ¬ b = a)) := by
  rw [jsSetFromArray]

lemma mem_jsSetFromArray {α : Type} [DecidableEq α] (l : List α) (x : α) :
    x ∈ jsSetFromArray l ↔ x ∈ l := by
  have H : ∀ n (l : List α), l.length ≤ n → ∀ x, (x ∈ jsSetFromArray l ↔ x ∈ l) := by
    intro n
    induction n with
    | zero =>
      intro l hl x
      have h0 : l = [] := List.length_eq_zero.mp (Nat.le_zero.mp hl)
      subst h0
      rw [jsSetFromArray]
    | succ n ih =>
      intro l hl x
      cases l with
      | nil => rw [jsSetFromArray]
      | cons a t =>
        rw [jsSetFromArray_cons]
        have hlf : (t.filter (fun b => ¬ b = a)).length ≤ n :=
          le_trans (List.length_filter_le _ _) (by simpa using hl)
        simp only [List.mem_cons]
        constructor
        · rintro (rfl | hx)
          · exact .inl rfl
          · exact .inr (List.mem_filter.mp ((ih _ hlf x).mp hx)).1
        · rintro (rfl | hx)
          · exact .inl rfl
          · by_cases hxa : x = a
            · exact .inl hxa
            · exact .inr ((ih _ hlf x).mpr (List.mem_filter.mpr ⟨hx, by simpa using hxa⟩))
  exact H l.length l le_rfl x

lemma nodup_jsSetFromArray {α : Type} [DecidableEq α] (l : List α) :
    (jsSetFromArray l).Nodup := by
  have H : ∀ n (l : List α), l.length ≤ n → (jsSetFromArray l).Nodup := by
    intro n
    induction n with
    | zero =>
      intro l hl
      have h0 : l = [] := List.length_eq_zero.mp (Nat.le_zero.mp hl)
      subst h0
      rw [jsSetFromArray]
      exact List.nodup_nil
    | succ n ih =>
      intro l hl
      cases l with
      | nil => rw [jsSetFromArray]; exact List.nodup_nil
      | cons a t =>
        rw [jsSetFromArray_cons]
        have hlf : (t.filter (fun b => ¬ b = a)).length ≤ n :=
          le_trans (List.length_filter_le _ _) (by simpa using hl)
        refine List.nodup_cons.mpr ⟨?_, ih _ hlf⟩
        intro ha
        have := (List.mem_filter.mp ((mem_jsSetFromArray _ a).mp ha)).2
        simp at this
  exact H l.length l le_rfl

/-- Index of the first occurrence of `x` in a list (length of the list
when absent). -/
def firstIdxOf {α : Type} [DecidableEq α] (x : α) : List α → Nat
  | [] => 0
  | a :: l => if a = x then 0 else firstIdxOf x l + 1

lemma firstIdxOf_cons_self {α : Type} [DecidableEq α] (x : α) (l : List α) :
    firstIdxOf x (x :: l) = 0 := by simp [firstIdxOf]

lemma firstIdxOf_cons_ne {α : Type} [DecidableEq α] {a x : α} (l : List α)
    (hne : a ≠ x) : firstIdxOf x (a :: l) = firstIdxOf x l + 1 := by
  simp [firstIdxOf, hne]

lemma firstIdxOf_filter_mono {α : Type} [DecidableEq α] (p : α → Bool) :
    ∀ (t : List α) (x y : α), x ∈ t.filter p → y ∈ t.filter p →
      firstIdxOf x (t.filter p) < firstIdxOf y (t.filter p) →
      firstIdxOf x t < firstIdxOf y t := by
  intro t
  induction t with
  | nil => simp
  | cons b t ih =>
    intro x y hx hy hlt
    by_cases hpb : p b = true
    · rw [List.filter_cons_of_pos hpb] at hx hy hlt
      by_cases hxb : x = b
      · subst hxb
        have hyx : y ≠ x := by
          intro he
          subst he
          exact lt_irrefl _ hlt
        rw [firstIdxOf_cons_self, firstIdxOf_cons_ne t (fun h => hyx h.symm)]
        omega
      · by_cases hyb : y = b
        · subst hyb
          rw [firstIdxOf_cons_self, firstIdxOf_cons_ne _ (fun h => hxb h.symm)] at hlt
          omega
        · rw [firstIdxOf_cons_ne _ (fun h => hxb h.symm),
              firstIdxOf_cons_ne _ (fun h => hyb h.symm)] at hlt
          have hx2 : x ∈ t.filter p := by
            rcases List.mem_cons.mp hx with h | h
            · exact absurd h hxb
            · exact h
          have hy2 : y ∈ t.filter p := by
            rcases List.mem_cons.mp hy with h | h
            · exact absurd h hyb
            · exact h
          rw [firstIdxOf_cons_ne _ (fun h => hxb h.symm),
              firstIdxOf_cons_ne _ (fun h => hyb h.symm)]
          have := ih x y hx2 hy2 (by omega)
          omega
    · rw [List.filter_cons_of_neg hpb] at hx hy hlt
      have hxb : x ≠ b := by
        intro he
        subst he
        exact hpb (List.mem_filter.mp hx).2
      have hyb : y ≠ b := by
        intro he
        subst he
        exact hpb (List.mem_filter.mp hy).2
      rw [firstIdxOf_cons_ne _ (fun h => hxb h.symm),
          firstIdxOf_cons_ne _ (fun h => hyb h.symm)]
      have := ih x y hx hy hlt
      omega

lemma pairwise_firstIdxOf_jsSetFromArray {α : Type} [DecidableEq α] (l : List α) :
    (jsSetFromArray l).Pairwise (fun x y => firstIdxOf x l < firstIdxOf y l) := by
  have H : ∀ n (l : List α), l.length ≤ n →
      (jsSetFromArray l).Pairwise (fun x y => firstIdxOf x l < firstIdxOf y l) := by
    intro n
    induction n with
    | zero =>
      intro l hl
      have h0 : l = [] := List.length_eq_zero.mp (Nat.le_zero.mp hl)
      subst h0
      rw [jsSetFromArray]
      exact List.Pairwise.nil
    | succ n ih =>
      intro l hl
      cases l with
      | nil => rw [jsSetFromArray]; exact List.Pairwise.nil
      | cons a t =>
        rw [jsSetFromArray_cons]
        have hlf : (t.filter (fun b => ¬ b = a)).length ≤ n :=
          le_trans (List.length_filter_le _ _) (by simpa using hl)
        refine List.Pairwise.cons ?_ ?_
        · intro y hy
          have hyf := (mem_jsSetFromArray _ y).mp hy
          have hya : y ≠ a := by
            have := (List.mem_filter.mp hyf).2
            simpa using this
          rw [firstIdxOf_cons_self, firstIdxOf_cons_ne t (fun h => hya h.symm)]
          omega
        · refine List.Pairwise.imp_of_mem ?_ (ih _ hlf)
          intro x y hx hy hlt
          have hxf := (mem_jsSetFromArray _ x).mp hx
          have hyf := (mem_jsSetFromArray _ y).mp hy
          have hxa : x ≠ a := by
            have := (List.mem_filter.mp hxf).2; simpa using this
          have hya : y ≠ a := by
            have := (List.mem_filter.mp hyf).2; simpa using this
          have := firstIdxOf_filter_mono _ t x y hxf hyf hlt
          rw [firstIdxOf_cons_ne t (fun h => hxa h.symm),
              firstIdxOf_cons_ne t (fun h => hya h.symm)]
          omega
  exact H l.length l le_rfl

/-- Claim C7: the export manifest lists the distinct template ids of the
slides in order of first appearance (no duplicates, same membership,
and ordered by first occurrence in the slide sequence), carries one
entry per device target whose file count counts the rendered images with
that target id, and carries one entry per slide in slide-id order with
that slide's headline, subheadline, screenshot id and template id. -/
theorem c7_manifest_contents (now : JSStr) (sb : Storyboard)
    (targets : List DeviceTarget) (imgs : List RenderedImageInput)
    (h5 : sb.slides.map (fun s => s.id) = [1, 2, 3, 4, 5]) :
    (ZipExportService.generateManifest now sb targets imgs).templatesUsed.Nodup ∧
    (∀ x, x ∈ (ZipExportService.generateManifest now sb targets imgs).templatesUsed ↔
      x ∈ sb.slides.map (fun s => s.templateId)) ∧
    (ZipExportService.generateManifest now sb targets imgs).templatesUsed.Pairwise
      (fun x y => firstIdxOf x (sb.slides.map (fun s => s.templateId)) <
        firstIdxOf y (sb.slides.map (fun s => s.templateId))) ∧
    (ZipExportService.generateManifest now sb targets imgs).targets.length =
      targets.length ∧
    (∀ i t, targets.get? i = some t →
      (ZipExportService.generateManifest now sb targets imgs).targets.get? i =
        some ⟨t.platform, t.width, t.height,
          imgs.countP (fun img => img.target.id == t.id)⟩) ∧
    (ZipExportService.generateManifest now sb targets imgs).slides.map
      (fun ms => ms.slideId) = [1, 2, 3, 4, 5] ∧
    (∀ i s, sb.slides.get? i = some s →
      (ZipExportService.generateManifest now sb targets imgs).slides.get? i =
        some ⟨s.id, s.text.headline, s.text.subheadline,
          s.screenshot.screenshotId, s.templateId⟩) := by
  refine ⟨?_, ?_, ?_, ?_, ?_, ?_, ?_⟩
  · show (jsSetFromArray (sb.slides.map (fun s => s.templateId))).Nodup
    exact nodup_jsSetFromArray (sb.slides.map (fun s => s.templateId))
  · intro x
    show x ∈ jsSetFromArray (sb.slides.map (fun s => s.templateId)) ↔ _
    exact mem_jsSetFromArray (sb.slides.map (fun s => s.templateId)) x
  · show (jsSetFromArray (sb.slides.map (fun s => s.templateId))).Pairwise _
    exact pairwise_firstIdxOf_jsSetFromArray (sb.slides.map (fun s => s.templateId))
  · exact List.length_map _ _
  · intro i t ht
    show (targets.map _).get? i = _
    rw [List.get?_map, ht]
    rw [List.countP_eq_length_filter]
    rfl
  · show (sb.slides.map _).map _ = _
    rw [List.map_map]
    exact h5
  · intro i s hs
    show (sb.slides.map _).get? i = _
    rw [List.get?_map, hs]
    rfl

/-- Witness for C7 on a concrete storyboard, target list and image
list. -/
theorem c7_manifest_contents_witness :
    (ZipExportService.generateManifest (jstr ("2024-01-05"))
        { appName := jstr ("MyApp")
          locale := jstr ("en-US")
          slides :=
            [⟨1, .hero, ⟨jstr ("h1"), jstr ("s1"), jstr ("en-US")⟩,
               ⟨jstr ("s1"), jstr ("a1.png")⟩, jstr ("hero")⟩,
             ⟨2, .feature, ⟨jstr ("h2"), jstr ("s2"), jstr ("en-US")⟩,
               ⟨jstr ("s2"), jstr ("a2.png")⟩, jstr ("stack")⟩,
             ⟨3, .feature, ⟨jstr ("h3"), jstr ("s3"), jstr ("en-US")⟩,
               ⟨jstr ("s3"), jstr ("a3.png")⟩, jstr ("split")⟩,
             ⟨4, .feature, ⟨jstr ("h4"), jstr ("s4"), jstr ("en-US")⟩,
               ⟨jstr ("s4"), jstr ("a4.png")⟩, jstr ("stack")⟩,
             ⟨5, .closing, ⟨jstr ("h5"), jstr ("s5"), jstr ("en-US")⟩,
               ⟨jstr ("s5"), jstr ("a5.png")⟩, jstr ("closing")⟩]
          createdAt := jstr ("2024-01-05")
          version := GENERATOR_VERSION } DEVICE_TARGETS
        [⟨IPHONE_TARGET, 1, []⟩, ⟨IPAD_TARGET, 1, []⟩]).templatesUsed.Nodup ∧
    (ZipExportService.generateManifest (jstr ("2024-01-05"))
        { appName := jstr ("MyApp")
          locale := jstr ("en-US")
          slides :=
            [⟨1, .hero, ⟨jstr ("h1"), jstr ("s1"), jstr ("en-US")⟩,
               ⟨jstr ("s1"), jstr ("a1.png")⟩, jstr ("hero")⟩,
             ⟨2, .feature, ⟨jstr ("h2"), jstr ("s2"), jstr ("en-US")⟩,
               ⟨jstr ("s2"), jstr ("a2.png")⟩, jstr ("stack")⟩,
             ⟨3, .feature, ⟨jstr ("h3"), jstr ("s3"), jstr ("en-US")⟩,
               ⟨jstr ("s3"), jstr ("a3.png")⟩, jstr ("split")⟩,
             ⟨4, .feature, ⟨jstr ("h4"), jstr ("s4"), jstr ("en-US")⟩,
               ⟨jstr ("s4"), jstr ("a4.png")⟩, jstr ("stack")⟩,
             ⟨5, .closing, ⟨jstr ("h5"), jstr ("s5"), jstr ("en-US")⟩,
               ⟨jstr ("s5"), jstr ("a5.png")⟩, jstr ("closing")⟩]
          createdAt := jstr ("2024-01-05")
          version := GENERATOR_VERSION } DEVICE_TARGETS
        [⟨IPHONE_TARGET, 1, []⟩, ⟨IPAD_TARGET, 1, []⟩]).slides.map
      (fun ms => ms.slideId) = [1, 2, 3, 4, 5] :=
  ⟨(c7_manifest_contents (jstr ("2024-01-05")) _ DEVICE_TARGETS
      [⟨IPHONE_TARGET, 1, []⟩, ⟨IPAD_TARGET, 1, []⟩] (by rfl)).1,
   (c7_manifest_contents (jstr ("2024-01-05")) _ DEVICE_TARGETS
      [⟨IPHONE_TARGET, 1, []⟩, ⟨IPAD_TARGET, 1, []⟩] (by rfl)).2.2.2.2.2.1⟩

lemma listSetAt_length {α : Type} :
    ∀ (l : List α) (i : Nat) (f : α → α),
      (StoryboardGenerator.listSetAt l i f).length = l.length
  | [], _, _ => rfl
  | _ :: l, 0, f => by simp [StoryboardGenerator.listSetAt]
  | a :: l, i + 1, f => by
    simp [StoryboardGenerator.listSetAt, listSetAt_length l i f]

lemma listSetAt_get?_ne {α : Type} :
    ∀ (l : List α) (i j : Nat) (f : α → α), j ≠ i →
      (StoryboardGenerator.listSetAt l i f).get? j = l.get? j
  | [], _, _, _, _ => rfl
  | a :: l, 0, 0, f, h => absurd rfl h
  | a :: l, 0, j + 1, f, _ => by simp [StoryboardGenerator.listSetAt]
  | a :: l, i + 1, 0, f, _ => by simp [StoryboardGenerator.listSetAt]
  | a :: l, i + 1, j + 1, f, h => by
    simp only [StoryboardGenerator.listSetAt, List.get?_cons_succ]
    exact listSetAt_get?_ne l i j f (fun he => h (by omega))

lemma listSetAt_get?_eq {α : Type} :
    ∀ (l : List α) (i : Nat) (f : α → α) (a : α), l.get? i = some a →
      (StoryboardGenerator.listSetAt l i f).get? i = some (f a)
  | [], i, f, a, h => by simp at h
  | b :: l, 0, f, a, h => by
    simp only [List.get?_cons_zero, Option.some.injEq] at h
    subst h
    rfl
  | b :: l, i + 1, f, a, h => by
    simp only [StoryboardGenerator.listSetAt, List.get?_cons_succ] at h ⊢
    exact listSetAt_get?_eq l i f a h

/-- Claim C8: for a slide id in 1..5, `updateScreenshotAssignment` and
`updateSlideText` return a new storyboard equal to the original in every
field and every other slide, differing only in the targeted slide's
screenshot reference or in the provided text fields (absent text fields
are preserved); for a slide id of 0, 6 or -1 (any id outside 1..5) both
reject with a validation error. -/
theorem c8_update_frame (sb : Storyboard) (slideId : Int) (nid nfn : JSStr)
    (patch : StoryboardGenerator.SlideTextPatch) :
    ((1 ≤ slideId ∧ slideId ≤ 5) →
      (∃ sb1, StoryboardGenerator.updateScreenshotAssignment sb slideId nid nfn
          = .ok sb1 ∧
        sb1.appName = sb.appName ∧ sb1.locale = sb.locale ∧
        sb1.createdAt = sb.createdAt ∧ sb1.version = sb.version ∧
        sb1.slides.length = sb.slides.length ∧
        (∀ j, j ≠ (slideId - 1).toNat → sb1.slides.get? j = sb.slides.get? j) ∧
        (∀ s, sb.slides.get? (slideId - 1).toNat = some s →
          sb1.slides.get? (slideId - 1).toNat =
            some { s with screenshot := ⟨nid, nfn⟩ })) ∧
      (∃ sb2, StoryboardGenerator.updateSlideText sb slideId patch = .ok sb2 ∧
        sb2.appName = sb.appName ∧ sb2.locale = sb.locale ∧
        sb2.createdAt = sb.createdAt ∧ sb2.version = sb.version ∧
        sb2.slides.length = sb.slides.length ∧
        (∀ j, j ≠ (slideId - 1).toNat → sb2.slides.get? j = sb.slides.get? j) ∧
        (∀ s, sb.slides.get? (slideId - 1).toNat = some s →
          sb2.slides.get? (slideId - 1).toNat =
            some { s with text :=
              { headline := patch.headline.getD s.text.headline
                subheadline := patch.subheadline.getD s.text.subheadline
                locale := s.text.locale } }))) ∧
    ((slideId < 1 ∨ 5 < slideId) →
      (∃ e, StoryboardGenerator.updateScreenshotAssignment sb slideId nid nfn
          = .error e) ∧
      (∃ e, StoryboardGenerator.updateSlideText sb slideId patch = .error e)) := by
  constructor
  · rintro ⟨hlo, hhi⟩
    have hcond : ¬(slideId < 1 ∨ slideId > (SLIDES_PER_STORYBOARD : Int)) := by
      simp only [SLIDES_PER_STORYBOARD]
      omega
    constructor
    · have hok : StoryboardGenerator.updateScreenshotAssignment sb slideId nid nfn = .ok { sb with slides := StoryboardGenerator.listSetAt sb.slides (slideId - 1).toNat (fun s => { s with screenshot := { screenshotId := nid, originalFilename := nfn } }) } := by
        unfold StoryboardGenerator.updateScreenshotAssignment
        rw [if_neg hcond]
      exact ⟨_, hok, rfl, rfl, rfl, rfl, listSetAt_length _ _ _,
        fun j hj => listSetAt_get?_ne _ _ _ _ hj,
        fun s hs => listSetAt_get?_eq _ _ _ _ hs⟩
    · have hok : StoryboardGenerator.updateSlideText sb slideId patch = .ok { sb with slides := StoryboardGenerator.listSetAt sb.slides (slideId - 1).toNat (fun s => { s with text := { headline := patch.headline.getD s.text.headline, subheadline := patch.subheadline.getD s.text.subheadline, locale := s.text.locale } }) } := by
        unfold StoryboardGenerator.updateSlideText
        rw [if_neg hcond]
      exact ⟨_, hok, rfl, rfl, rfl, rfl, listSetAt_length _ _ _,
        fun j hj => listSetAt_get?_ne _ _ _ _ hj,
        fun s hs => listSetAt_get?_eq _ _ _ _ hs⟩
  · intro hout
    have hcond : slideId < 1 ∨ slideId > (SLIDES_PER_STORYBOARD : Int) := by
      simp only [SLIDES_PER_STORYBOARD]
      omega
    constructor
    · have herr : StoryboardGenerator.updateScreenshotAssignment sb slideId nid nfn = .error ("Invalid slide ID: " ++ toString slideId ++ ". Must be 1-5") := by
        unfold StoryboardGenerator.updateScreenshotAssignment
        rw [if_pos hcond]
      exact ⟨_, herr⟩
    · have herr : StoryboardGenerator.updateSlideText sb slideId patch = .error ("Invalid slide ID: " ++ toString slideId ++ ". Must be 1-5") := by
        unfold StoryboardGenerator.updateSlideText
        rw [if_pos hcond]
      exact ⟨_, herr⟩

/-- Witness for C8 at slide id 2 (in range) and 0 (out of range) on a
concrete one-slide-targeting patch. -/
theorem c8_update_frame_witness :
    (∃ sb1, StoryboardGenerator.updateScreenshotAssignment
        { appName := jstr ("MyApp"), locale := jstr ("en-US"),
          slides := [⟨1, .hero, ⟨jstr ("h1"), jstr ("x1"), jstr ("en-US")⟩,
                       ⟨jstr ("s1"), jstr ("a1.png")⟩, jstr ("hero")⟩,
                     ⟨2, .feature, ⟨jstr ("h2"), jstr ("x2"), jstr ("en-US")⟩,
                       ⟨jstr ("s2"), jstr ("a2.png")⟩, jstr ("stack")⟩],
          createdAt := jstr ("t"), version := GENERATOR_VERSION }
        2 (jstr ("s9")) (jstr ("new.png")) = .ok sb1 ∧
      sb1.appName = jstr ("MyApp") ∧
      sb1.slides.get? 0 =
        some ⟨1, .hero, ⟨jstr ("h1"), jstr ("x1"), jstr ("en-US")⟩,
          ⟨jstr ("s1"), jstr ("a1.png")⟩, jstr ("hero")⟩ ∧
      sb1.slides.get? 1 =
        some ⟨2, .feature, ⟨jstr ("h2"), jstr ("x2"), jstr ("en-US")⟩,
          ⟨jstr ("s9"), jstr ("new.png")⟩, jstr ("stack")⟩) ∧
    (∃ sb2, StoryboardGenerator.updateSlideText
        { appName := jstr ("MyApp"), locale := jstr ("en-US"),
          slides := [⟨1, .hero, ⟨jstr ("h1"), jstr ("x1"), jstr ("en-US")⟩,
                       ⟨jstr ("s1"), jstr ("a1.png")⟩, jstr ("hero")⟩,
                     ⟨2, .feature, ⟨jstr ("h2"), jstr ("x2"), jstr ("en-US")⟩,
                       ⟨jstr ("s2"), jstr ("a2.png")⟩, jstr ("stack")⟩],
          createdAt := jstr ("t"), version := GENERATOR_VERSION }
        2 { headline := some (jstr ("HL")) } = .ok sb2 ∧
      sb2.slides.get? 1 =
        some ⟨2, .feature, ⟨jstr ("HL"), jstr ("x2"), jstr ("en-US")⟩,
          ⟨jstr ("s2"), jstr ("a2.png")⟩, jstr ("stack")⟩) ∧
    (∃ e, StoryboardGenerator.updateScreenshotAssignment
        { appName := jstr ("MyApp"), locale := jstr ("en-US"),
          slides := [], createdAt := jstr ("t"), version := GENERATOR_VERSION }
        0 (jstr ("s9")) (jstr ("new.png")) = .error e) ∧
    (∃ e, StoryboardGenerator.updateSlideText
        { appName := jstr ("MyApp"), locale := jstr ("en-US"),
          slides := [], createdAt := jstr ("t"), version := GENERATOR_VERSION }
        (-1) { headline := some (jstr ("HL")) } = .error e) := by
  refine ⟨?_, ?_, ?_, ?_⟩
  · obtain ⟨⟨sb1, hok, hname, _, _, _, _, hne, heq⟩, _⟩ :=
      (c8_update_frame _ 2 (jstr ("s9")) (jstr ("new.png"))
        { headline := some (jstr ("HL")) }).1 ⟨by decide, by decide⟩
    refine ⟨sb1, hok, hname, ?_, ?_⟩
    · rw [hne 0 (by decide)]
      rfl
    · show sb1.slides.get? ((2 : Int) - 1).toNat = _
      rw [heq _ (by rfl)]
  · obtain ⟨_, ⟨sb2, hok, _, _, _, _, _, hne, heq⟩⟩ :=
      (c8_update_frame _ 2 (jstr ("s9")) (jstr ("new.png"))
        { headline := some (jstr ("HL")) }).1 ⟨by decide, by decide⟩
    refine ⟨sb2, hok, ?_⟩
    show sb2.slides.get? ((2 : Int) - 1).toNat = _
    rw [heq _ (by rfl)]
    rfl
  · exact ((c8_update_frame _ 0 (jstr ("s9")) (jstr ("new.png"))
      { headline := some (jstr ("HL")) }).2 (by omega)).1
  · exact ((c8_update_frame _ (-1) (jstr ("s9")) (jstr ("new.png"))
      { headline := some (jstr ("HL")) }).2 (by omega)).2

lemma exceptOk_bind {ε α β : Type} (a : α) (f : α → Except ε β) :
    (Except.ok a >>= f : Except ε β) = f a := rfl

lemma exceptError_bind {ε α β : Type} (e : ε) (f : α → Except ε β) :
    (Except.error e >>= f : Except ε β) = .error e := rfl

lemma list_length_six {α : Type} (l : List α) (h : l.length = 6) :
    ∃ a b c d e f, l = [a, b, c, d, e, f] := by
  rcases l with _ | ⟨a, l⟩
  · simp only [List.length_nil] at h; omega
  rcases l with _ | ⟨b, l⟩
  · simp only [List.length_cons, List.length_nil] at h; omega
  rcases l with _ | ⟨c, l⟩
  · simp only [List.length_cons, List.length_nil] at h; omega
  rcases l with _ | ⟨d, l⟩
  · simp only [List.length_cons, List.length_nil] at h; omega
  rcases l with _ | ⟨e, l⟩
  · simp only [List.length_cons, List.length_nil] at h; omega
  rcases l with _ | ⟨f, l⟩
  · simp only [List.length_cons, List.length_nil] at h; omega
  rcases l with _ | ⟨g, l⟩
  · exact ⟨a, b, c, d, e, f, rfl⟩
  · simp only [List.length_cons] at h
    omega

lemma isValidHexColor_hexToRgb (s : JSStr) (h : isValidHexColor s = true) :
    ∃ rgb, hexToRgb s = .ok rgb := by
  unfold isValidHexColor at h
  split at h
  case h_2 => exact absurd h (by simp)
  case h_1 rest =>
    simp only [Bool.and_eq_true, decide_eq_true_eq, List.all_eq_true] at h
    obtain ⟨hlen, hall⟩ := h
    obtain ⟨a, b, c, d, e, f, rfl⟩ := list_length_six rest hlen
    have ha := hall a (by simp)
    have hb := hall b (by simp)
    have hc := hall c (by simp)
    have hd := hall d (by simp)
    have he := hall e (by simp)
    have hf := hall f (by simp)
    refine ⟨⟨hexDigitVal a * 16 + hexDigitVal b,
      hexDigitVal c * 16 + hexDigitVal d,
      hexDigitVal e * 16 + hexDigitVal f⟩, ?_⟩
    simp [hexToRgb, ha, hb, hc, hd, he, hf]

lemma getBrandColor_hexToRgb_ok (u : Option JSStr) :
    ∃ rgb, hexToRgb (getBrandColor u) = .ok rgb := by
  unfold getBrandColor
  split_ifs with h
  · rw [Bool.and_eq_true] at h
    exact isValidHexColor_hexToRgb _ h.2
  · exact ⟨⟨14, 165, 233⟩, by rfl⟩

lemma templates_colors_ok (t : Template) (ht : t ∈ TEMPLATES) :
    ∃ rgb, hexToRgb (t.background.colors.getD 0 []) = .ok rgb := by
  simp only [TEMPLATES, List.mem_cons, List.mem_singleton] at ht
  rcases ht with rfl | rfl | rfl | rfl | h
  · exact ⟨_, by rfl⟩
  · exact ⟨_, by rfl⟩
  · exact ⟨_, by rfl⟩
  · exact ⟨_, by rfl⟩
  · exact absurd h (by simp)

lemma createBaseCanvas_ok (target : DeviceTarget) (t : Template)
    (ht : t ∈ TEMPLATES) (brand : Option JSStr) :
    ∃ canvas, createBaseCanvas target t brand = .ok canvas := by
  unfold createBaseCanvas
  dsimp only
  by_cases hb : jsTruthyOpt brand = true
  · obtain ⟨rgb, hr⟩ := getBrandColor_hexToRgb_ok brand
    rw [if_pos hb, hr]
    exact ⟨_, rfl⟩
  · obtain ⟨rgb, hr⟩ := templates_colors_ok t ht
    rw [if_neg hb, hr]
    exact ⟨_, rfl⟩

/-- Claim C1: a successful render returns an image whose width and
height exactly equal the target's; and whenever the slide's template id
resolves, the base canvas succeeds and a flattened buffer whose reported
dimensions differ from the target's makes render raise an error rather
than return the image. -/
theorem c1_render_dimensions (flatten : Canvas → FlattenResult)
    (target : DeviceTarget) (slide : Slide) (screenshotBuffer : ImgBuffer)
    (brandColor : Option JSStr) :
    (∀ img, SharpRenderer.render flatten target slide screenshotBuffer
        brandColor = .ok img →
      img.width = target.width ∧ img.height = target.height) ∧
    (∀ tmpl, getTemplateById slide.templateId = .ok tmpl →
      ∃ canvas, createBaseCanvas target tmpl brandColor = .ok canvas ∧
        (((flatten (Canvas.withText (Canvas.withScreenshot canvas
            screenshotBuffer tmpl.screenshotPosition) slide.text
            tmpl.textPosition)).width ≠ target.width ∨
          (flatten (Canvas.withText (Canvas.withScreenshot canvas
            screenshotBuffer tmpl.screenshotPosition) slide.text
            tmpl.textPosition)).height ≠ target.height) →
          ∃ e, SharpRenderer.render flatten target slide screenshotBuffer
            brandColor = .error e)) := by
  constructor
  · intro img h
    unfold SharpRenderer.render at h
    cases h1 : getTemplateById slide.templateId with
    | error e =>
      rw [h1, exceptError_bind] at h
      cases h
    | ok tmpl =>
      rw [h1, exceptOk_bind] at h
      cases h2 : createBaseCanvas target tmpl brandColor with
      | error e =>
        rw [h2, exceptError_bind] at h
        cases h
      | ok canvas =>
        rw [h2, exceptOk_bind] at h
        dsimp only at h
        split_ifs at h with hcond
        · obtain ⟨hw, hh⟩ := not_or.mp hcond
          injection h with h
          subst h
          exact ⟨not_ne_iff.mp hw, not_ne_iff.mp hh⟩
  · intro tmpl h1
    obtain ⟨canvas, h2⟩ :=
      createBaseCanvas_ok target tmpl (getTemplateById_ok h1).1 brandColor
    refine ⟨canvas, h2, ?_⟩
    intro hmm
    have herr : SharpRenderer.render flatten target slide screenshotBuffer
        brandColor = .error ("Dimension mismatch") := by
      unfold SharpRenderer.render
      rw [h1, exceptOk_bind, h2, exceptOk_bind]
      dsimp only
      rw [if_pos hmm]
    exact ⟨_, herr⟩

/-- Witness for C1: a flattener reporting the right dimensions yields an
image of exactly those dimensions; one reporting 0 × 0 makes render
fail. -/
theorem c1_render_dimensions_witness :
    (∃ img, SharpRenderer.render (fun _ => ⟨[], 1290, 2796⟩) IPHONE_TARGET
        ⟨1, .hero, ⟨jstr ("h"), jstr ("s"), jstr ("en-US")⟩,
          ⟨jstr ("s1"), jstr ("a.png")⟩, jstr ("hero")⟩ [] none = .ok img ∧
      img.width = IPHONE_TARGET.width ∧ img.height = IPHONE_TARGET.height) ∧
    (∃ e, SharpRenderer.render (fun _ => ⟨[], 0, 0⟩) IPHONE_TARGET
        ⟨1, .hero, ⟨jstr ("h"), jstr ("s"), jstr ("en-US")⟩,
          ⟨jstr ("s1"), jstr ("a.png")⟩, jstr ("hero")⟩ [] none = .error e) := by
  constructor
  · exact ⟨_, rfl,
      (c1_render_dimensions (fun _ => ⟨[], 1290, 2796⟩) IPHONE_TARGET
        ⟨1, .hero, ⟨jstr ("h"), jstr ("s"), jstr ("en-US")⟩,
          ⟨jstr ("s1"), jstr ("a.png")⟩, jstr ("hero")⟩ [] none).1 _ rfl⟩
  · obtain ⟨canvas, hc, himp⟩ :=
      (c1_render_dimensions (fun _ => ⟨[], 0, 0⟩) IPHONE_TARGET
        ⟨1, .hero, ⟨jstr ("h"), jstr ("s"), jstr ("en-US")⟩,
          ⟨jstr ("s1"), jstr ("a.png")⟩, jstr ("hero")⟩ [] none).2
        HERO_TEMPLATE (by rfl)
    exact himp (Or.inl (by decide))

end Polishui
